import Mathlib

/-!
Verification of the rust-game-engine repository: a shallow embedding of
src/main.rs (frame loop, backend dispatch) and
src/graphics_pipeline/mod.rs (TriangleRenderPipeline: build, prepare, draw),
with theorems settling the specification claims.
-/

namespace Engine

/-! ## Data model: vertices (graphics_pipeline/mod.rs, main.rs VERTEX_DATA) -/

/-- Position([x, y, z]) : three f32 components. The concrete constants in the
source are 0.0, plus-minus 0.5 and 1.0, all exactly representable, so we model
the component values as rationals. -/
structure Position where
  x : ℚ
  y : ℚ
  z : ℚ
deriving DecidableEq

/-- Color([r, g, b, a]) : four f32 components. -/
structure Color where
  r : ℚ
  g : ℚ
  b : ℚ
  a : ℚ
deriving DecidableEq

/-- PosColor { position, color } : one vertex of the static triangle. -/
structure PosColor where
  position : Position
  color : Color
deriving DecidableEq

/-- VERTEX_DATA: the three hard-coded vertices of main.rs lines 39-52. -/
def VERTEX_DATA : List PosColor :=
  [ { position := { x := -(1/2), y := 1/2, z := 0 },
      color := { r := 1, g := 0, b := 0, a := 1 } },
    { position := { x := 0, y := -(1/2), z := 0 },
      color := { r := 0, g := 1, b := 0, a := 1 } },
    { position := { x := 1/2, y := 1/2, z := 0 },
      color := { r := 0, g := 0, b := 1, a := 1 } } ]

/-! ## Vertex layout strides -/

/-- Size in bytes of one f32 component. -/
def f32_size : Nat := 4

/-- One vertex attribute, recorded as its number of f32 components. -/
structure Attribute where
  components : Nat
deriving DecidableEq

/-- Stride of a packed attribute list: sum of the attribute byte sizes. -/
def layout_stride (attrs : List Attribute) : Nat :=
  (attrs.map (fun a => a.components * f32_size)).sum

/-- Static compile-time layout of PosColor: a 3-component f32 position
followed by a 4-component f32 color (rendy mesh PosColor). -/
def posColor_attributes : List Attribute := [⟨3⟩, ⟨4⟩]

/-- Stride reported by the static path PosColor.vertex().stride. -/
def posColor_vertex_stride : Nat := layout_stride posColor_attributes

/-- Modelled from the spec: the reflected vertex-attribute layout
SHADER_REFLECTION.attributes_range(..) of the shader set. The GLSL shader
sources referenced by the repository are not under src/; spec section 3 states
the vertex carries position 3 x float32 and color 4 x float32 and that the
reflected layout must be consistent with the static layout. -/
def shader_reflection_attributes : List Attribute := [⟨3⟩, ⟨4⟩]

/-- Stride reported by the reflection path (spirv-reflection feature). -/
def shader_reflection_stride : Nat := layout_stride shader_reflection_attributes

/-- The stride actually used by prepare, selected by the spirv-reflection
cfg feature flag (mod.rs lines 104-108). -/
def vertex_stride (spirv_reflection : Bool) : Nat :=
  if spirv_reflection then shader_reflection_stride else posColor_vertex_stride

/-! ## Buffers and the pipeline node (graphics_pipeline/mod.rs) -/

/-- gfx_hal buffer usage flag requested by prepare. -/
inductive BufferUsage
  | VERTEX
deriving DecidableEq

/-- BufferInfo { size, usage } passed to factory.create_buffer. -/
structure BufferInfo where
  size : Nat
  usage : BufferUsage
deriving DecidableEq

/-- A provisioned GPU buffer: its creation info and the uploaded contents.
The factory collaborator is external; creation and upload failures abort the
process (spec section 7), so the successful result is modelled. -/
structure Buffer where
  info : BufferInfo
  contents : List PosColor
deriving DecidableEq

/-- TriangleRenderPipeline { vertex_buffer: Option<Escape<Buffer<B>>> }. -/
structure TriangleRenderPipeline where
  vertex_buffer : Option Buffer
deriving DecidableEq

/-- Opaque external buffer binding passed to build. -/
structure NodeBuffer where
  id : Nat
deriving DecidableEq

/-- Opaque external image binding passed to build. -/
structure NodeImage where
  id : Nat
deriving DecidableEq

/-- Opaque descriptor-set-layout handle passed to build. -/
structure DescriptorSetLayout where
  id : Nat
deriving DecidableEq

/-- build (mod.rs lines 65-82): asserts that the buffer, image and
descriptor-set-layout lists are all empty, in that order, then returns the
pipeline in the empty state. A failed assert aborts: modelled as none. -/
def build (buffers : List NodeBuffer) (images : List NodeImage)
    (set_layouts : List DescriptorSetLayout) : Option TriangleRenderPipeline :=
  if buffers.isEmpty then
    if images.isEmpty then
      if set_layouts.isEmpty then
        some { vertex_buffer := none }
      else none
    else none
  else none

/-- PrepareResult returned by prepare. -/
inductive PrepareResult
  | DrawReuse
  | DrawRecord
deriving DecidableEq

/-- prepare (mod.rs lines 92-133): when the vertex buffer is absent, compute
vbuf_size = stride * VERTEX_DATA.len(), create a vertex-usage buffer of that
size, upload VERTEX_DATA into it and store it; otherwise leave the node
untouched. Always returns DrawReuse. The spirv_reflection argument is the cfg
feature selecting the stride source. -/
def prepare (self : TriangleRenderPipeline) (spirv_reflection : Bool) :
    TriangleRenderPipeline × PrepareResult :=
  let self :=
    if self.vertex_buffer.isNone then
      let vbuf_size := vertex_stride spirv_reflection * VERTEX_DATA.length
      let buf_info : BufferInfo := { size := vbuf_size, usage := BufferUsage.VERTEX }
      let vertex_buffer : Buffer := { info := buf_info, contents := VERTEX_DATA }
      { vertex_buffer := some vertex_buffer }
    else self
  (self, PrepareResult.DrawReuse)

/-- One command recorded into the render-pass encoder by draw. -/
inductive DrawCommand
  | bind_vertex_buffers (first_binding : Nat) (buffers : List (Buffer × Nat))
  | draw (vertices : Nat × Nat) (instances : Nat × Nat)
deriving DecidableEq

/-- draw (mod.rs lines 135-148): unwraps the vertex buffer (none models the
unwrap panic on an absent buffer), binds it at binding 0 with offset 0, and
issues encoder.draw(0..3, 0..1). The frame index argument is unused. -/
def draw (self : TriangleRenderPipeline) (_index : Nat) : Option (List DrawCommand) :=
  match self.vertex_buffer with
  | none => none
  | some vb =>
      some [DrawCommand.bind_vertex_buffers 0 [(vb, 0)],
            DrawCommand.draw (0, 3) (0, 1)]

/-! ## Events and the frame loop (main.rs run, lines 206-254) -/

/-- Keyboard keys, with Escape distinguished. -/
inductive VirtualKeyCode
  | Escape
  | OtherKey
deriving DecidableEq

/-- winit window events: CloseRequested, keyboard input, anything else. -/
inductive WindowEvent
  | CloseRequested
  | KeyboardInput (key : VirtualKeyCode)
  | OtherWindowEvent
deriving DecidableEq

/-- winit events: a window event or any non-window event. -/
inductive Event
  | WindowEvent (w : WindowEvent)
  | OtherEvent
deriving DecidableEq

/-- The closure passed to events_loop.poll_events (main.rs lines 222-230):
only a CloseRequested window event clears the running flag; every other event
leaves it unchanged. -/
def handle_event (running : Bool) (event : Event) : Bool :=
  match event with
  | Event.WindowEvent w =>
      match w with
      | WindowEvent.CloseRequested => false
      | _ => running
  | _ => running

/-- poll_events: the non-blocking poll delivers every pending event of this
tick to handle_event in order. -/
def poll_events (running : Bool) (events : List Event) : Bool :=
  events.foldl handle_event running

/-- std::time::Duration as read back by started.elapsed(). -/
structure Duration where
  secs : Nat
  subsec_nanos : Nat
deriving DecidableEq

/-- Modulus of u64 arithmetic. -/
def U64_MOD : Nat := 2 ^ 64

/-- Reduction of a u64 computation modulo 2 to the 64. -/
def wrap64 (n : Nat) : Nat := n % U64_MOD

/-- elapsed_ns (main.rs line 243): elapsed.as_secs() * 1_000_000_000 +
elapsed.subsec_nanos() as u64, in u64 arithmetic. -/
def elapsed_ns (d : Duration) : Nat :=
  wrap64 (wrap64 (d.secs * 1000000000) + d.subsec_nanos)

/-- The mutable state of run: the running flag, the frame counter (u64), the
graph option (taken only at disposal), the last elapsed reading, plus ghost
counters for the factory.maintain and graph.run calls performed. -/
structure LoopState where
  running : Bool
  frame : Nat
  maintains : Nat
  graph_runs : Nat
  graph : Option Unit
  elapsed : Duration
deriving DecidableEq

/-- State at entry of the while loop (main.rs lines 213-219): running = true,
frame = 0, graph present, elapsed = the initial started.elapsed() reading. -/
def init_state (d0 : Duration) : LoopState :=
  { running := true, frame := 0, maintains := 0, graph_runs := 0,
    graph := some (), elapsed := d0 }

/-- One iteration of the while body (main.rs lines 220-239): poll all pending
events, call factory.maintain unconditionally, then, when the graph is
present, graph.run and frame += 1 (u64), and finally record
elapsed = started.elapsed() as the reading d of this tick. -/
def tick (s : LoopState) (events : List Event) (d : Duration) : LoopState :=
  let running := poll_events s.running events
  match s.graph with
  | some _ =>
      { running := running, frame := wrap64 (s.frame + 1),
        maintains := s.maintains + 1, graph_runs := s.graph_runs + 1,
        graph := s.graph, elapsed := d }
  | none =>
      { running := running, frame := s.frame,
        maintains := s.maintains + 1, graph_runs := s.graph_runs,
        graph := none, elapsed := d }

/-- The while running loop, driven by a finite schedule assigning to each
tick its pending events and its elapsed reading. The loop checks running
before each iteration; an exhausted schedule ends the trace. -/
def loop : LoopState → List (List Event × Duration) → LoopState
  | s, [] => s
  | s, (events, d) :: rest => if s.running then loop (tick s events d) rest else s

/-- Division as performed by the u64 / operator: panics (none) on a zero
divisor. -/
def checked_div (a b : Nat) : Option Nat :=
  if b = 0 then none else some (a / b)

/-- The record reported to the logging collaborator (main.rs lines 245-250). -/
structure FrameReport where
  elapsed : Duration
  frames : Nat
  fps : Nat
deriving DecidableEq

/-- Outcome of the epilogue after the loop: the summary was reported and the
graph disposed; or the fps division panicked before reporting; or the graph
was already absent and the epilogue was skipped. -/
inductive FinishOutcome
  | reported (r : FrameReport)
  | panicked
  | skipped
deriving DecidableEq

/-- The epilogue (main.rs lines 241-253): when the graph is still present,
compute elapsed_ns, compute fps = frame * 1_000_000_000 / elapsed_ns in u64
arithmetic (panicking on a zero divisor), log the report, then dispose the
graph. -/
def finish (s : LoopState) : FinishOutcome :=
  match s.graph with
  | none => FinishOutcome.skipped
  | some _ =>
      match checked_div (wrap64 (s.frame * 1000000000)) (elapsed_ns s.elapsed) with
      | none => FinishOutcome.panicked
      | some fps =>
          FinishOutcome.reported { elapsed := s.elapsed, frames := s.frame, fps := fps }

/-- run (main.rs lines 206-254): the loop followed by the epilogue. -/
def run (d0 : Duration) (schedule : List (List Event × Duration)) :
    LoopState × FinishOutcome :=
  let s := loop (init_state d0) schedule
  (s, finish s)

/-! ## Backend dispatch (main.rs lines 30-35, 256-301) -/

/-- What the process does at startup. -/
inductive MainOutcome
  | render_loop
  | early_exit (message : String)
deriving DecidableEq

/-- Startup dispatch: the cfg gate any(feature dx12, feature metal,
feature vulkan) selects the render-loop main (main.rs line 256); with none of
those features enabled, the fallback main (main.rs lines 297-301) prints a
diagnostic and returns normally. -/
def main (enabled_features : List String) : MainOutcome :=
  if "dx12" ∈ enabled_features ∨ "metal" ∈ enabled_features ∨
      "vulkan" ∈ enabled_features then
    MainOutcome.render_loop
  else
    MainOutcome.early_exit
      "Please enable one of the backend features: dx12, metal, vulkan"

/-! ## Schedules used by the end-to-end scenarios -/

/-- N ticks each delivering one ordinary (non-terminating) event, with
elapsed reading d. -/
def ordinary_schedule (N : Nat) (d : Duration) : List (List Event × Duration) :=
  List.replicate N ([Event.OtherEvent], d)

/-- N ordinary ticks followed by one tick delivering CloseRequested, whose
elapsed reading is df. -/
def scenario_schedule (N : Nat) (dt df : Duration) : List (List Event × Duration) :=
  ordinary_schedule N dt ++ [([Event.WindowEvent WindowEvent.CloseRequested], df)]

/-! ## Helper lemmas -/

/-- handle_event never raises the flag. -/
lemma handle_event_false (e : Event) : handle_event false e = false := by
  cases e with
  | WindowEvent w => cases w <;> rfl
  | OtherEvent => rfl

/-- A cleared running flag survives the rest of the poll. -/
lemma poll_events_false (events : List Event) : poll_events false events = false := by
  induction events with
  | nil => rfl
  | cons e rest ih =>
      simp only [poll_events, List.foldl_cons, handle_event_false] at *
      exact ih

/-- A poll whose batch holds a CloseRequested event clears the flag. -/
lemma poll_events_close (running : Bool) (events : List Event)
    (h : Event.WindowEvent WindowEvent.CloseRequested ∈ events) :
    poll_events running events = false := by
  induction events generalizing running with
  | nil => cases h
  | cons e rest ih =>
      rcases List.mem_cons.mp h with he | hrest
      · subst he
        simp only [poll_events, List.foldl_cons, handle_event]
        exact poll_events_false rest
      · simp only [poll_events, List.foldl_cons]
        exact ih (handle_event running e) hrest

/-- A poll with no CloseRequested event leaves the flag unchanged. -/
lemma poll_events_no_close (running : Bool) (events : List Event)
    (h : Event.WindowEvent WindowEvent.CloseRequested ∉ events) :
    poll_events running events = running := by
  induction events generalizing running with
  | nil => rfl
  | cons e rest ih =>
      have he : e ≠ Event.WindowEvent WindowEvent.CloseRequested := by
        intro hc; exact h (hc ▸ List.mem_cons_self e rest)
      have hrest : Event.WindowEvent WindowEvent.CloseRequested ∉ rest := by
        intro hc; exact h (List.mem_cons_of_mem e hc)
      have hstep : handle_event running e = running := by
        cases e with
        | WindowEvent w =>
            cases w with
            | CloseRequested => exact absurd rfl he
            | KeyboardInput k => rfl
            | OtherWindowEvent => rfl
        | OtherEvent => rfl
      simp only [poll_events, List.foldl_cons, hstep]
      exact ih running hrest

/-- A halted loop performs no further iteration. -/
lemma loop_halted (s : LoopState) (schedule : List (List Event × Duration))
    (h : s.running = false) : loop s schedule = s := by
  cases schedule with
  | nil => rfl
  | cons t rest =>
      obtain ⟨events, d⟩ := t
      simp [loop, h]

/-- tick on a state whose graph is present. -/
lemma tick_graph_some (s : LoopState) (events : List Event) (d : Duration)
    (hg : s.graph = some ()) :
    tick s events d =
      { running := poll_events s.running events, frame := wrap64 (s.frame + 1),
        maintains := s.maintains + 1, graph_runs := s.graph_runs + 1,
        graph := some (), elapsed := d } := by
  simp [tick, hg]

/-- The running field after any tick is the poll result. -/
lemma tick_running (s : LoopState) (events : List Event) (d : Duration) :
    (tick s events d).running = poll_events s.running events := by
  cases hg : s.graph <;> simp [tick, hg]

/-- A concrete provisioned buffer, as produced by the static-layout prepare
path: size 28 * 3 = 84 bytes, vertex usage, holding the triangle vertices. -/
def sample_buffer : Buffer :=
  { info := { size := 84, usage := BufferUsage.VERTEX }, contents := VERTEX_DATA }

/-- A concrete node in the provisioned state. -/
def provisioned_node : TriangleRenderPipeline :=
  { vertex_buffer := some sample_buffer }

/-! ## Claim theorems -/

/-- C3: for every PipelineState node and every call to prepare after the
first successful call on that node, the vertex buffer stored in the node is
unchanged (the provisioned buffer is never reallocated, resized, or
replaced), and every call to prepare returns the Reuse result. -/
theorem c3_prepare_idempotent_reuse (s : TriangleRenderPipeline) (b : Buffer)
    (flag : Bool) (h : s.vertex_buffer = some b) :
    prepare s flag = (s, PrepareResult.DrawReuse) ∧
    (∀ t : TriangleRenderPipeline, (prepare t flag).2 = PrepareResult.DrawReuse) ∧
    (∀ t : TriangleRenderPipeline, (prepare t flag).1.vertex_buffer.isSome = true) := by
  refine ⟨by simp [prepare, h], fun t => rfl, fun t => ?_⟩
  rcases ht : t.vertex_buffer with _ | vb
  · simp [prepare, ht]
  · simp [prepare, ht]

/-- Witness for c3_prepare_idempotent_reuse at a concrete provisioned node. -/
theorem c3_prepare_idempotent_reuse_witness :
    provisioned_node.vertex_buffer = some sample_buffer ∧
    (prepare provisioned_node false = (provisioned_node, PrepareResult.DrawReuse) ∧
    (∀ t : TriangleRenderPipeline, (prepare t false).2 = PrepareResult.DrawReuse) ∧
    (∀ t : TriangleRenderPipeline, (prepare t false).1.vertex_buffer.isSome = true)) :=
  ⟨rfl, c3_prepare_idempotent_reuse provisioned_node sample_buffer false rfl⟩

/-- C4: from the Empty state, prepare requests a buffer of size
stride * 3 (the vertex count is exactly 3), with the stride taken from the
reflected layout or the static layout according to the feature flag; the two
stride sources agree (28 bytes each). -/
theorem c4_buffer_size_stride (flag : Bool) :
    (prepare { vertex_buffer := none } flag).1.vertex_buffer =
      some { info := { size := vertex_stride flag * 3, usage := BufferUsage.VERTEX },
             contents := VERTEX_DATA } ∧
    VERTEX_DATA.length = 3 ∧
    vertex_stride true = vertex_stride false ∧
    posColor_vertex_stride = 28 ∧ shader_reflection_stride = 28 := by
  refine ⟨?_, rfl, rfl, rfl, rfl⟩
  cases flag <;> rfl

/-- C5: draw on a provisioned node binds the vertex buffer at binding slot 0
with offset 0 and issues exactly one draw call with vertex range 0..3 and
instance range 0..1, for every frame index. -/
theorem c5_draw_commands (s : TriangleRenderPipeline) (vb : Buffer) (index : Nat)
    (h : s.vertex_buffer = some vb) :
    draw s index = some [DrawCommand.bind_vertex_buffers 0 [(vb, 0)],
                         DrawCommand.draw (0, 3) (0, 1)] := by
  simp [draw, h]

/-- Witness for c5_draw_commands at a concrete provisioned node and a
concrete frame index. -/
theorem c5_draw_commands_witness :
    provisioned_node.vertex_buffer = some sample_buffer ∧
    draw provisioned_node 7 =
      some [DrawCommand.bind_vertex_buffers 0 [(sample_buffer, 0)],
            DrawCommand.draw (0, 3) (0, 1)] :=
  ⟨rfl, c5_draw_commands provisioned_node sample_buffer 7 rfl⟩

/-- C6: build fails fatally (assert) exactly when one of the buffer, image or
descriptor-set-layout lists is non-empty; on three empty lists it returns the
pipeline in the empty state (vertex_buffer absent). -/
theorem c6_build_asserts (buffers : List NodeBuffer) (images : List NodeImage)
    (set_layouts : List DescriptorSetLayout) :
    (build buffers images set_layouts = none ↔
      ¬(buffers = [] ∧ images = [] ∧ set_layouts = [])) ∧
    build ([] : List NodeBuffer) [] [] =
      some { vertex_buffer := none } := by
  cases buffers <;> cases images <;> cases set_layouts <;> simp [build]

/-- C8 counterexample: with only the gl feature enabled the program still
takes the early-exit diagnostic path, so gl is not a recognized backend
option. -/
theorem c8_gl_counterexample :
    main ["gl"] = MainOutcome.early_exit
      "Please enable one of the backend features: dx12, metal, vulkan" := by
  simp [main]

/-- C8 (amended): the set of recognized startup backend options is exactly
the three features dx12, metal and vulkan; when none of them is enabled the
program exits early and non-fatally with a diagnostic message instead of
running the render loop. -/
theorem c8_backend_options (features : List String) :
    (main features = MainOutcome.render_loop ↔
      ("dx12" ∈ features ∨ "metal" ∈ features ∨ "vulkan" ∈ features)) ∧
    (main features = MainOutcome.early_exit
        "Please enable one of the backend features: dx12, metal, vulkan" ↔
      ¬("dx12" ∈ features ∨ "metal" ∈ features ∨ "vulkan" ∈ features)) := by
  unfold main
  split <;> rename_i h <;> simp [h]

/-- C9: draw on a node whose vertex buffer is absent aborts fatally (the
unwrap of the absent buffer, modelled as none); after any successful prepare
the buffer is present, so the abort branch is unreachable. -/
theorem c9_draw_absent_buffer (index : Nat) :
    draw { vertex_buffer := none } index = none ∧
    ∀ (s : TriangleRenderPipeline) (flag : Bool) (j : Nat),
      (draw (prepare s flag).1 j).isSome = true := by
  refine ⟨rfl, fun s flag j => ?_⟩
  rcases hs : s.vertex_buffer with _ | vb
  · simp [prepare, hs, draw]
  · simp [prepare, hs, draw]

/-- C10: the fps computation divides by the elapsed nanosecond count without
a guard: when the measured elapsed time is zero nanoseconds the u64 division
panics and no summary is reported. -/
theorem c10_fps_division_by_zero (s : LoopState) (hg : s.graph = some ())
    (h0 : elapsed_ns s.elapsed = 0) :
    finish s = FinishOutcome.panicked := by
  simp [finish, hg, h0, checked_div]

/-- Witness for c10_fps_division_by_zero: a run that terminates with a
zero-nanosecond elapsed reading panics in the epilogue. -/
theorem c10_fps_division_by_zero_witness :
    (init_state ⟨0, 0⟩).graph = some () ∧
    elapsed_ns (init_state ⟨0, 0⟩).elapsed = 0 ∧
    finish (init_state ⟨0, 0⟩) = FinishOutcome.panicked :=
  ⟨rfl, by decide, c10_fps_division_by_zero (init_state ⟨0, 0⟩) rfl (by decide)⟩

/-- C1 counterexample: an Escape key-press event does not clear the running
flag, so the loop does not terminate on it; the claim that Escape terminates
the loop is false on this code. -/
theorem c1_escape_counterexample :
    (tick (init_state ⟨0, 0⟩)
      [Event.WindowEvent (WindowEvent.KeyboardInput VirtualKeyCode.Escape)]
      ⟨0, 0⟩).running = true ∧
    loop (init_state ⟨0, 0⟩)
      [([Event.WindowEvent (WindowEvent.KeyboardInput VirtualKeyCode.Escape)], ⟨0, 0⟩),
       ([Event.WindowEvent WindowEvent.CloseRequested], ⟨0, 0⟩)] ≠
      tick (init_state ⟨0, 0⟩)
        [Event.WindowEvent (WindowEvent.KeyboardInput VirtualKeyCode.Escape)]
        ⟨0, 0⟩ := by
  constructor
  · decide
  · decide

/-- C1 (amended): a CloseRequested window event sets the running flag to
false and terminates the loop within one polling tick; no other event (an
Escape key-press included) causes termination: without a CloseRequested event
in the batch the flag stays true. -/
theorem c1_close_terminates (s : LoopState) (events : List Event) (d : Duration)
    (hr : s.running = true) :
    (Event.WindowEvent WindowEvent.CloseRequested ∈ events →
      (tick s events d).running = false ∧
      ∀ rest, loop (tick s events d) rest = tick s events d) ∧
    (Event.WindowEvent WindowEvent.CloseRequested ∉ events →
      (tick s events d).running = true) := by
  constructor
  · intro hmem
    have hrun : (tick s events d).running = false := by
      rw [tick_running]
      exact poll_events_close s.running events hmem
    exact ⟨hrun, fun rest => loop_halted _ rest hrun⟩
  · intro hmem
    rw [tick_running, poll_events_no_close s.running events hmem]
    exact hr

/-- Witness for c1_close_terminates: one tick delivering CloseRequested to
the initial state. -/
theorem c1_close_terminates_witness :
    (init_state ⟨0, 0⟩).running = true ∧
    ((Event.WindowEvent WindowEvent.CloseRequested ∈
        [Event.WindowEvent WindowEvent.CloseRequested] →
      (tick (init_state ⟨0, 0⟩) [Event.WindowEvent WindowEvent.CloseRequested]
        ⟨0, 0⟩).running = false ∧
      ∀ rest, loop (tick (init_state ⟨0, 0⟩)
          [Event.WindowEvent WindowEvent.CloseRequested] ⟨0, 0⟩) rest =
        tick (init_state ⟨0, 0⟩) [Event.WindowEvent WindowEvent.CloseRequested]
          ⟨0, 0⟩) ∧
    (Event.WindowEvent WindowEvent.CloseRequested ∉
        [Event.WindowEvent WindowEvent.CloseRequested] →
      (tick (init_state ⟨0, 0⟩) [Event.WindowEvent WindowEvent.CloseRequested]
        ⟨0, 0⟩).running = true)) :=
  ⟨rfl, c1_close_terminates (init_state ⟨0, 0⟩)
    [Event.WindowEvent WindowEvent.CloseRequested] ⟨0, 0⟩ rfl⟩

/-- C2 counterexample: on the tick that polls CloseRequested the running flag
becomes false, yet graph.run is still executed and the frame counter still
incremented, against the claim that a tick whose polling cleared the flag
performs neither. -/
theorem c2_run_after_close_counterexample :
    (tick (init_state ⟨0, 0⟩) [Event.WindowEvent WindowEvent.CloseRequested]
      ⟨0, 0⟩).running = false ∧
    (tick (init_state ⟨0, 0⟩) [Event.WindowEvent WindowEvent.CloseRequested]
      ⟨0, 0⟩).graph_runs = 1 ∧
    (tick (init_state ⟨0, 0⟩) [Event.WindowEvent WindowEvent.CloseRequested]
      ⟨0, 0⟩).frame = 1 := by
  refine ⟨by decide, by decide, by decide⟩

/-- C2 (amended): every tick executes factory.maintain and then, the graph
being present throughout the loop, graph.run and the frame-counter increment,
unconditionally and regardless of the running flag left by that tick's
polling; injecting CloseRequested on tick 1 therefore yields exactly one
graph.run and frame_count = 1 at exit. -/
theorem c2_tick_unconditional (s : LoopState) (events : List Event) (d : Duration)
    (hg : s.graph = some ()) :
    (tick s events d).maintains = s.maintains + 1 ∧
    (tick s events d).graph_runs = s.graph_runs + 1 ∧
    (tick s events d).frame = wrap64 (s.frame + 1) ∧
    ∀ dc : Duration,
      loop (init_state dc) [([Event.WindowEvent WindowEvent.CloseRequested], d)] =
        { running := false, frame := 1, maintains := 1, graph_runs := 1,
          graph := some (), elapsed := d } := by
  rw [tick_graph_some s events d hg]
  refine ⟨rfl, rfl, rfl, fun dc => ?_⟩
  have h1 : loop (init_state dc) [([Event.WindowEvent WindowEvent.CloseRequested], d)] =
      tick (init_state dc) [Event.WindowEvent WindowEvent.CloseRequested] d := by
    simp [loop, init_state]
  rw [h1, tick_graph_some _ _ _ rfl]
  norm_num [init_state, poll_events, handle_event, wrap64, U64_MOD]

/-- Witness for c2_tick_unconditional at the initial state and one concrete
tick. -/
theorem c2_tick_unconditional_witness :
    (init_state ⟨0, 0⟩).graph = some () ∧
    ((tick (init_state ⟨0, 0⟩) [Event.OtherEvent] ⟨0, 3⟩).maintains =
        (init_state ⟨0, 0⟩).maintains + 1 ∧
    (tick (init_state ⟨0, 0⟩) [Event.OtherEvent] ⟨0, 3⟩).graph_runs =
        (init_state ⟨0, 0⟩).graph_runs + 1 ∧
    (tick (init_state ⟨0, 0⟩) [Event.OtherEvent] ⟨0, 3⟩).frame =
        wrap64 ((init_state ⟨0, 0⟩).frame + 1) ∧
    ∀ dc : Duration,
      loop (init_state dc) [([Event.WindowEvent WindowEvent.CloseRequested], ⟨0, 3⟩)] =
        { running := false, frame := 1, maintains := 1, graph_runs := 1,
          graph := some (), elapsed := ⟨0, 3⟩ }) :=
  ⟨rfl, c2_tick_unconditional (init_state ⟨0, 0⟩) [Event.OtherEvent] ⟨0, 3⟩ rfl⟩

/-- Running the loop over N ordinary ticks advances the counters by N,
leaves the flag up and the graph present, and then continues with the rest of
the schedule. -/
lemma loop_ordinary (dt : Duration) (rest : List (List Event × Duration)) :
    ∀ (N : Nat) (s : LoopState), s.running = true → s.graph = some () →
      s.frame + N < U64_MOD →
      loop s (ordinary_schedule N dt ++ rest) =
        loop { running := true, frame := s.frame + N, maintains := s.maintains + N,
               graph_runs := s.graph_runs + N, graph := some (),
               elapsed := if N = 0 then s.elapsed else dt } rest := by
  intro N
  induction N with
  | zero =>
      intro s hr hg _
      obtain ⟨r, f, m, g, go, e⟩ := s
      simp only at hr hg
      subst hr
      subst hg
      simp [ordinary_schedule]
  | succ n ih =>
      intro s hr hg hb
      have hstep : tick s [Event.OtherEvent] dt =
          { running := true, frame := s.frame + 1, maintains := s.maintains + 1,
            graph_runs := s.graph_runs + 1, graph := some (), elapsed := dt } := by
        rw [tick_graph_some s _ dt hg]
        have hw : wrap64 (s.frame + 1) = s.frame + 1 :=
          Nat.mod_eq_of_lt (by omega)
        have hp : poll_events s.running [Event.OtherEvent] = s.running := rfl
        rw [hw, hp, hr]
      have hcons : ordinary_schedule (n + 1) dt =
          ([Event.OtherEvent], dt) :: ordinary_schedule n dt := rfl
      rw [hcons, List.cons_append]
      have hloop : loop s ((([Event.OtherEvent], dt)) :: (ordinary_schedule n dt ++ rest)) =
          loop (tick s [Event.OtherEvent] dt) (ordinary_schedule n dt ++ rest) := by
        simp [loop, hr]
      rw [hloop, hstep, ih _ rfl rfl (by simp only; omega)]
      congr 1
      rw [LoopState.mk.injEq]
      refine ⟨rfl, ?_, ?_, ?_, rfl, ?_⟩
      · show s.frame + 1 + n = s.frame + (n + 1)
        omega
      · show s.maintains + 1 + n = s.maintains + (n + 1)
        omega
      · show s.graph_runs + 1 + n = s.graph_runs + (n + 1)
        omega
      · simp

/-- C7: a run of N + 1 ticks, each of which executed graph.run, terminates
with the frame counter equal to N + 1, and the epilogue reports throughput
frame_count * 1e9 / elapsed_ns computed in integer arithmetic, where
elapsed_ns = elapsed_seconds * 1e9 + subsecond_nanoseconds (the bounds
hypotheses keep the u64 computations from wrapping). -/
theorem c7_throughput_report (N : Nat) (d0 dt df : Duration)
    (hN : N + 1 < U64_MOD)
    (hfit : (N + 1) * 1000000000 < U64_MOD)
    (hd : df.secs * 1000000000 + df.subsec_nanos < U64_MOD)
    (hnz : df.secs * 1000000000 + df.subsec_nanos ≠ 0) :
    (loop (init_state d0) (scenario_schedule N dt df)).frame = N + 1 ∧
    (loop (init_state d0) (scenario_schedule N dt df)).graph_runs = N + 1 ∧
    (loop (init_state d0) (scenario_schedule N dt df)).running = false ∧
    finish (loop (init_state d0) (scenario_schedule N dt df)) =
      FinishOutcome.reported
        { elapsed := df, frames := N + 1,
          fps := (N + 1) * 1000000000 / (df.secs * 1000000000 + df.subsec_nanos) } := by
  have hloop : loop (init_state d0) (scenario_schedule N dt df) =
      { running := false, frame := N + 1, maintains := N + 1, graph_runs := N + 1,
        graph := some (), elapsed := df } := by
    unfold scenario_schedule
    rw [loop_ordinary dt _ N (init_state d0) rfl rfl (by simp [init_state]; omega)]
    have hclose : loop
        ({ running := true, frame := (init_state d0).frame + N,
           maintains := (init_state d0).maintains + N,
           graph_runs := (init_state d0).graph_runs + N, graph := some (),
           elapsed := if N = 0 then (init_state d0).elapsed else dt } : LoopState)
        [([Event.WindowEvent WindowEvent.CloseRequested], df)] =
        tick { running := true, frame := (init_state d0).frame + N,
               maintains := (init_state d0).maintains + N,
               graph_runs := (init_state d0).graph_runs + N, graph := some (),
               elapsed := if N = 0 then (init_state d0).elapsed else dt }
          [Event.WindowEvent WindowEvent.CloseRequested] df := by
      simp [loop]
    rw [hclose, tick_graph_some _ _ _ rfl]
    rw [LoopState.mk.injEq]
    refine ⟨rfl, ?_, by simp [init_state], by simp [init_state], rfl, rfl⟩
    show wrap64 ((init_state d0).frame + N + 1) = N + 1
    have : (init_state d0).frame + N + 1 = N + 1 := by simp [init_state]
    rw [this]
    exact Nat.mod_eq_of_lt hN
  refine ⟨by rw [hloop], by rw [hloop], by rw [hloop], ?_⟩
  rw [hloop]
  have h1 : wrap64 ((N + 1) * 1000000000) = (N + 1) * 1000000000 :=
    Nat.mod_eq_of_lt hfit
  have h2 : elapsed_ns df = df.secs * 1000000000 + df.subsec_nanos := by
    unfold elapsed_ns wrap64
    rw [Nat.mod_eq_of_lt (lt_of_le_of_lt (Nat.le_add_right _ _) hd),
        Nat.mod_eq_of_lt hd]
  simp [finish, checked_div, h1, h2, hnz]

/-- Witness for c7_throughput_report: one ordinary tick, then CloseRequested,
with a final elapsed reading of 1 second and 5 nanoseconds. -/
theorem c7_throughput_report_witness :
    1 + 1 < U64_MOD ∧
    (1 + 1) * 1000000000 < U64_MOD ∧
    (1 : Nat) * 1000000000 + 5 < U64_MOD ∧
    ((1 : Nat) * 1000000000 + 5 ≠ 0) ∧
    ((loop (init_state ⟨0, 0⟩) (scenario_schedule 1 ⟨0, 1⟩ ⟨1, 5⟩)).frame = 1 + 1 ∧
    (loop (init_state ⟨0, 0⟩) (scenario_schedule 1 ⟨0, 1⟩ ⟨1, 5⟩)).graph_runs = 1 + 1 ∧
    (loop (init_state ⟨0, 0⟩) (scenario_schedule 1 ⟨0, 1⟩ ⟨1, 5⟩)).running = false ∧
    finish (loop (init_state ⟨0, 0⟩) (scenario_schedule 1 ⟨0, 1⟩ ⟨1, 5⟩)) =
      FinishOutcome.reported
        { elapsed := ⟨1, 5⟩, frames := 1 + 1,
          fps := (1 + 1) * 1000000000 / ((1 : Nat) * 1000000000 + 5) }) :=
  ⟨by norm_num [U64_MOD], by norm_num [U64_MOD], by norm_num [U64_MOD],
   by norm_num,
   c7_throughput_report 1 ⟨0, 0⟩ ⟨0, 1⟩ ⟨1, 5⟩ (by norm_num [U64_MOD])
     (by norm_num [U64_MOD]) (by norm_num [U64_MOD]) (by norm_num)⟩

end Engine
